import Mathlib

/-!
Verification development for the BME680/BSEC sensor reader
(`src/bsec/reader.c`).  The file gives a shallow embedding of the
hardware-, timing- and persistence-abstraction functions of the reader
(`bus_write`, `bus_read`, `sleeper`, `get_timestamp_us`, `output_ready`,
`state_load`, `state_save`) and proves the specification's claims about
them.

Modelling conventions:
* Bytes are `Nat`; C buffers are `List Nat`.
* The operating-system calls `write`/`read` on the I2C file descriptor
  are modelled as environment parameters giving, for each issued buffer
  or requested length, the byte count the OS reports as transferred
  (a C `ssize_t`, modelled as `Int`).
* `uint32_t` arithmetic is `Nat` arithmetic reduced `% 4294967296`.
* A path on which the C code executes `exit(1)` is the explicit outcome
  `exited`; a path on which it runs into undefined behaviour
  (out-of-bounds store, `fclose(NULL)`) is `none` resp. `crash`.
* C `float` values are modelled as rationals: the claims about
  `output_ready` concern which signals appear in a record, not printf
  rounding, which the spec declares a presentation concern.
-/

/-- Outcome of a call to `bus_write`: either the function returns to its
caller with the `int8_t` result `rslt`, or the process terminates via
`exit(code)` inside the function. -/
inductive WriteOutcome where
  | ret (rslt : Int)
  | exited (code : Nat)
deriving DecidableEq

/-- Contents of the 16-byte stack buffer `reg` after the copy loop of
`bus_write` (reader.c:83-88): `reg[0] = reg_addr` and
`reg[i] = reg_data_ptr[i-1]` for `1 ≤ i ≤ data_len`, so the first
`data_len + 1` cells hold the register offset followed by the first
`data_len` payload bytes.  The stores are in bounds only when
`data_len + 1 ≤ 16` (and the loads from the payload only when the payload
holds at least `data_len` bytes); outside that the C code overruns the
stack buffer, which the embedding models as `none` (undefined
behaviour). -/
def bus_write_reg (reg_addr : Nat) (reg_data : List Nat) (data_len : Nat) :
    Option (List Nat) :=
  if data_len + 1 ≤ 16 ∧ data_len ≤ reg_data.length then
    some (reg_addr :: reg_data.take data_len)
  else
    none

/-- Shallow embedding of `bus_write` (reader.c:79-96).  `osWrite` models
the OS call `write(g_i2cFid, reg, data_len + 1)`: for the buffer handed
to it, the byte count the OS reports.  The C code issues one `write` of
`data_len + 1` bytes from `reg`; if the reported count differs it prints
an error, sets `rslt = 1` and then calls `exit(1)`, so the nonzero
result never reaches the caller. -/
def bus_write (reg_addr : Nat) (reg_data : List Nat) (data_len : Nat)
    (osWrite : List Nat → Int) : Option WriteOutcome :=
  match bus_write_reg reg_addr reg_data data_len with
  | none => none
  | some reg =>
    if osWrite reg = (data_len : Int) + 1 then some (WriteOutcome.ret 0)
    else some (WriteOutcome.exited 1)

/-- Indices of the stack buffer `reg[16]` written by the copy loop of
`bus_write` (reader.c:86-88): `for (int i = 1; i < data_len + 1; i++)
reg[i] = ...`, i.e. `i = 1, ..., data_len`. -/
def bus_write_copy_indices (data_len : Nat) : List Nat :=
  List.range' 1 data_len

/-- Shallow embedding of `bus_read` (reader.c:108-125).  `osWrite`
models `write(g_i2cFid, reg, 1)` for the single-byte buffer
`reg = [reg_addr]`; `osRead` models `read(g_i2cFid, reg_data_ptr,
data_len)`, returning for the requested length the count the OS reports
together with the bytes it placed in the caller's buffer.  The C code
sets `rslt = 1` if the write phase did not transfer exactly 1 byte, then
sets `rslt = 1` if the read phase did not transfer exactly `data_len`
bytes, and returns `(rslt, buffer contents)` — it does not exit. -/
def bus_read (reg_addr : Nat) (data_len : Nat)
    (osWrite : List Nat → Int) (osRead : Nat → Int × List Nat) :
    Int × List Nat :=
  let reg : List Nat := [reg_addr]
  let rslt : Int := 0
  let rslt := if osWrite reg ≠ 1 then 1 else rslt
  let r := osRead data_len
  let rslt := if r.1 ≠ (data_len : Int) then 1 else rslt
  (rslt, r.2)

/-- Microsecond argument `sleeper` (reader.c:134-137) hands to
`usleep`: the C expression `t_ms * 1000` computed in `uint32_t`
arithmetic, i.e. modulo `2^32`. -/
def sleeper_usleep_arg (t_ms : Nat) : Nat :=
  (t_ms * 1000) % 4294967296

/-- Shallow embedding of `get_timestamp_us` (reader.c:144-151) applied
to one `gettimeofday` reading `(tv_sec, tv_usec)`: the C code computes
`tv.tv_sec * 1000000ll + tv.tv_usec`. -/
def get_timestamp_us (tv_sec tv_usec : Int) : Int :=
  tv_sec * 1000000 + tv_usec

/-- Sequence of values successive calls to `get_timestamp_us` return
within one process, given the sequence `clock` of readings the settable
realtime clock behind `gettimeofday` delivers (`gettimeofday` reads
`CLOCK_REALTIME`; POSIX lets its successive readings be an arbitrary
`(tv_sec, tv_usec)` sequence, e.g. stepped backwards by a clock
adjustment). -/
def timestampTrace (clock : Nat → Int × Int) (n : Nat) : Int :=
  get_timestamp_us (clock n).1 (clock n).2

/-- One field of the record `output_ready` writes for a
`FusionResult`. -/
inductive OutField where
  | timestampField (v : Rat)
  | temperatureField (v : Rat)
  | pressureField (v : Rat)
  | humidityField (v : Rat)
  | gasField (v : Rat)
  | iaqField (v : Rat)
  | iaqAccuracyField (v : Nat)
deriving DecidableEq

/-- Whether a record field is the derived-value accuracy tier. -/
def OutField.isAccuracyField : OutField → Bool
  | OutField.iaqAccuracyField _ => true
  | _ => false

/-- Shallow embedding of `output_ready` (reader.c:169-183): the record
it prints for one `FusionResult`, as the list of fields in print order.
Both the `DEBUG` and the non-`DEBUG` branch print the same six signals:
the timestamp (scaled by `1 / 1000000000`), the temperature, the
pressure scaled by `1 / 100`, the relative humidity, the raw gas signal
and the IAQ value.  The parameters `iaq_accuracy`, `raw_temperature`,
`raw_humidity`, `bsec_status`, `static_iaq`, `co2_equivalent` and
`breath_voc_equivalent` are accepted but never printed. -/
def output_ready (timestamp : Int) (iaq : Rat) (iaq_accuracy : Nat)
    (temperature humidity pressure raw_temperature raw_humidity gas : Rat)
    (bsec_status : Int) (static_iaq co2_equivalent breath_voc_equivalent : Rat) :
    List OutField :=
  [OutField.timestampField ((timestamp : Rat) / 1000000000),
   OutField.temperatureField temperature,
   OutField.pressureField (pressure / 100),
   OutField.humidityField humidity,
   OutField.gasField gas,
   OutField.iaqField iaq]

/-- Column titles `output_header` (reader.c:185-188) prints: six
columns, none for the accuracy tier. -/
def output_header : List String :=
  ["Timestamp", "Temperature", "Pressure", "RelativeHumidity",
   "GasRawReading", "IAQ"]

/-- State of the durable storage behind `bsec_state.dat`: the file's
contents when it exists, whether an `fopen` for writing or appending
succeeds, and whether an `fopen` for reading succeeds. -/
structure FS where
  file : Option (List Nat)
  writable : Bool
  readable : Bool
deriving DecidableEq

/-- Outcome of `state_save`: a normal return with the updated storage,
or the undefined behaviour of `fclose(NULL)`. -/
inductive SaveOutcome where
  | ok (fs : FS)
  | crash
deriving DecidableEq

/-- Outcome of `state_load`: a normal return with the byte count, the
bytes placed in the caller's buffer and the updated storage, or the
undefined behaviour of `fclose(NULL)`. -/
inductive LoadOutcome where
  | ok (size : Nat) (bytes : List Nat) (fs : FS)
  | crash
deriving DecidableEq

/-- Shallow embedding of `state_save` (reader.c:234-249).  The C code
opens `bsec_state.dat` with mode `w`; on success `fwrite` replaces the
file's contents with the first `length` bytes of `state_buffer` and
`fclose` succeeds.  On failure it prints `Unable to save sensor state!`
— and then still executes `fclose(state_file)` with
`state_file = NULL`, which is undefined behaviour (a crash on glibc),
so the function does not return normally on that path. -/
def state_save (state_buffer : List Nat) (length : Nat) (fs : FS) :
    SaveOutcome :=
  if fs.writable then
    SaveOutcome.ok
      { file := some (state_buffer.take length),
        writable := fs.writable, readable := fs.readable }
  else
    SaveOutcome.crash

/-- Shallow embedding of `state_load` (reader.c:200-224).  The C code
first opens `bsec_state.dat` with mode `a` and closes it, creating an
empty file when none exists; if that open fails the immediate
`fclose(NULL)` is undefined behaviour.  It then opens the file with
mode `r`: on success `fread` places `min n_buffer (file length)` bytes
in the caller's buffer and that count is returned; on failure the code
sets `size = 0` but then executes `fclose(state_file)` with
`state_file = NULL`, again undefined behaviour, so the `size = 0`
branch never returns normally. -/
def state_load (n_buffer : Nat) (fs : FS) : LoadOutcome :=
  if fs.writable then
    let created : FS :=
      { file := some (fs.file.getD []),
        writable := fs.writable, readable := fs.readable }
    if created.readable then
      let contents := created.file.getD []
      let bytes := contents.take n_buffer
      LoadOutcome.ok bytes.length bytes created
    else
      LoadOutcome.crash
  else
    LoadOutcome.crash

/-! ## Claims -/

/-- C1: round-trip persistence.  For every byte sequence `b` of length
`N` with `N` not exceeding the load buffer size `n_buffer`, on storage
where the open-for-write and open-for-read calls succeed, `state_save b
N` followed by `state_load n_buffer` returns exactly `N` bytes that are
byte-identical to `b` — no silent truncation. -/
theorem state_save_load_roundtrip (fs : FS) (b : List Nat) (N n_buffer : Nat)
    (hlen : b.length = N) (hbuf : N ≤ n_buffer)
    (hw : fs.writable = true) (hr : fs.readable = true) :
    ∃ fs1 fs2, state_save b N fs = SaveOutcome.ok fs1 ∧
      state_load n_buffer fs1 = LoadOutcome.ok N b fs2 := by
  subst hlen
  refine ⟨⟨some b, fs.writable, fs.readable⟩, ⟨some b, fs.writable, fs.readable⟩,
    ?_, ?_⟩
  · simp [state_save, hw, List.take_length]
  · simp [state_load, hw, hr, List.take_of_length_le hbuf]

/-- C1 witness: saving the three bytes `[1, 2, 3]` on empty writable
storage and reloading with an 8-byte buffer returns exactly those three
bytes. -/
theorem state_save_load_roundtrip_w :
    ∃ fs1 fs2, state_save [1, 2, 3] 3 ⟨none, true, true⟩ = SaveOutcome.ok fs1 ∧
      state_load 8 fs1 = LoadOutcome.ok 3 [1, 2, 3] fs2 :=
  state_save_load_roundtrip ⟨none, true, true⟩ [1, 2, 3] 3 8 rfl
    (by decide) rfl rfl

/-- C2 counterexample: at a concrete input (accuracy tier
`iaq_accuracy = 2`), no field of the record `output_ready` writes is
the accuracy-tier field — the claim that every record contains the
derived-value accuracy tier is false. -/
theorem output_ready_no_accuracy_cex :
    List.all (output_ready 0 1 2 3 4 5 6 7 8 0 0 0 0)
      (fun f => ! OutField.isAccuracyField f) = true := by
  rfl

/-- C2 amended: the record `output_ready` writes for a `FusionResult`
contains the timestamp, temperature, pressure, relative humidity, raw
gas signal and the derived index value (IAQ), but not the derived-value
accuracy tier: `iaq_accuracy` is accepted as a parameter and never
appears in the record. -/
theorem output_ready_fields (timestamp : Int) (iaq : Rat) (iaq_accuracy : Nat)
    (temperature humidity pressure raw_temperature raw_humidity gas : Rat)
    (bsec_status : Int) (static_iaq co2_equivalent breath_voc_equivalent : Rat) :
    output_ready timestamp iaq iaq_accuracy temperature humidity pressure
        raw_temperature raw_humidity gas bsec_status static_iaq
        co2_equivalent breath_voc_equivalent =
      [OutField.timestampField ((timestamp : Rat) / 1000000000),
       OutField.temperatureField temperature,
       OutField.pressureField (pressure / 100),
       OutField.humidityField humidity,
       OutField.gasField gas,
       OutField.iaqField iaq] ∧
    ∀ v, OutField.iaqAccuracyField v ∉
      output_ready timestamp iaq iaq_accuracy temperature humidity pressure
        raw_temperature raw_humidity gas bsec_status static_iaq
        co2_equivalent breath_voc_equivalent := by
  refine ⟨rfl, fun v => ?_⟩
  simp [output_ready]

/-- C3 counterexample: with a bus that transfers 2 of the requested 3
bytes, `bus_write` terminates the process via `exit(1)` instead of
returning the nonzero result to its caller. -/
theorem bus_write_short_exits_cex :
    bus_write 118 [1, 2] 2 (fun _ => 2) = some (WriteOutcome.exited 1) := by
  rfl

/-- C3 amended: for every call to `bus_write` in which the underlying
bus transfer moves fewer (or otherwise other) than `data_len + 1`
bytes, the code prints an error and records `rslt = 1`, but then
terminates the process via `exit(1)`; the nonzero result is never
returned to the caller. -/
theorem bus_write_short_transfer_exits (reg_addr : Nat) (reg_data : List Nat)
    (data_len : Nat) (osWrite : List Nat → Int)
    (hlen : data_len + 1 ≤ 16) (hdata : data_len ≤ reg_data.length)
    (hshort : osWrite (reg_addr :: reg_data.take data_len) ≠ (data_len : Int) + 1) :
    bus_write reg_addr reg_data data_len osWrite =
      some (WriteOutcome.exited 1) := by
  unfold bus_write bus_write_reg
  rw [if_pos ⟨hlen, hdata⟩]
  simp only [if_neg hshort]

/-- C3 amended witness: a one-byte write whose transfer reports 0 bytes
ends in `exit(1)`. -/
theorem bus_write_short_transfer_exits_w :
    bus_write 118 [5] 1 (fun _ => 0) = some (WriteOutcome.exited 1) :=
  bus_write_short_transfer_exits 118 [5] 1 (fun _ => 0) (by decide) (by decide)
    (by decide)

/-- C4: the claim that `state_load` returns 0 and returns normally even
when the backing storage is unreadable is contradicted by the code: on
a storage where the state file exists but `fopen(STATE_FILE_PATH, "r")`
fails, the code sets `size = 0` but then executes `fclose(NULL)` —
undefined behaviour, not a normal return of 0. -/
theorem state_load_unreadable_crash :
    state_load 64 ⟨some [7], true, false⟩ = LoadOutcome.crash := by
  rfl

/-- C5: the claim that `state_save` reports an open failure and returns
normally is contradicted by the code: when `fopen(STATE_FILE_PATH, "w")`
fails, the code prints the report but then executes `fclose(NULL)` —
undefined behaviour, not a normal return. -/
theorem state_save_unwritable_crash :
    state_save [1, 2, 3] 3 ⟨none, false, true⟩ = SaveOutcome.crash := by
  rfl

/-- C6: `bus_read` issues the single-byte write `[reg_addr]` followed
by a read of `data_len` bytes; its result is nonzero exactly when the
write phase transfers other than 1 byte or the read phase transfers
other than `data_len` bytes, and on a zero result the caller's buffer
holds the `data_len` bytes the read placed there.  The hypothesis ties
the OS read's reported count to the number of bytes it placed in the
buffer, as `read(2)` guarantees. -/
theorem bus_read_result (reg_addr : Nat) (data_len : Nat)
    (osWrite : List Nat → Int) (osRead : Nat → Int × List Nat)
    (hread : (osRead data_len).1 = ((osRead data_len).2.length : Int)) :
    ((bus_read reg_addr data_len osWrite osRead).1 ≠ 0 ↔
      (osWrite [reg_addr] ≠ 1 ∨ (osRead data_len).1 ≠ (data_len : Int))) ∧
    ((bus_read reg_addr data_len osWrite osRead).1 = 0 →
      (bus_read reg_addr data_len osWrite osRead).2 = (osRead data_len).2 ∧
        (osRead data_len).2.length = data_len) := by
  have hbr : bus_read reg_addr data_len osWrite osRead =
      (if (osRead data_len).1 ≠ (data_len : Int) then 1
       else if osWrite [reg_addr] ≠ 1 then 1 else 0,
       (osRead data_len).2) := rfl
  rw [hbr]
  constructor
  · by_cases hw : osWrite [reg_addr] = 1 <;>
      by_cases hrc : (osRead data_len).1 = (data_len : Int) <;>
      simp [hw, hrc]
  · intro h0
    by_cases hrc : (osRead data_len).1 = (data_len : Int)
    · refine ⟨rfl, ?_⟩
      have h2 : ((osRead data_len).2.length : Int) = (data_len : Int) :=
        hread.symm.trans hrc
      exact_mod_cast h2
    · simp [hrc] at h0

/-- C6 witness: the spec's end-to-end scenario — the read phase
transfers 3 bytes when 4 are requested, so the result is nonzero. -/
theorem bus_read_result_w :
    ((bus_read 118 4 (fun _ => 1) (fun _ => (3, [9, 9, 9]))).1 ≠ 0 ↔
      ((1 : Int) ≠ 1 ∨ (3 : Int) ≠ ((4 : Nat) : Int))) ∧
    ((bus_read 118 4 (fun _ => 1) (fun _ => (3, [9, 9, 9]))).1 = 0 →
      (bus_read 118 4 (fun _ => 1) (fun _ => (3, [9, 9, 9]))).2 = [9, 9, 9] ∧
        ([9, 9, 9] : List Nat).length = 4) :=
  bus_read_result 118 4 (fun _ => 1) (fun _ => (3, [9, 9, 9])) rfl

/-- C7: for every call to `bus_write` whose payload holds `data_len`
bytes (with `data_len ≤ 15`, the bound under which the stack buffer
copy is total) and whose transfer succeeds, the buffer issued on the
bus is exactly the register offset byte followed by the `data_len`
payload bytes in order — `data_len + 1` bytes in one framed write
transaction — and the call returns 0. -/
theorem bus_write_frame (reg_addr : Nat) (reg_data : List Nat)
    (data_len : Nat) (osWrite : List Nat → Int)
    (hlen : data_len ≤ 15) (hdata : reg_data.length = data_len)
    (hok : osWrite (reg_addr :: reg_data) = (data_len : Int) + 1) :
    bus_write_reg reg_addr reg_data data_len = some (reg_addr :: reg_data) ∧
    (reg_addr :: reg_data).length = data_len + 1 ∧
    bus_write reg_addr reg_data data_len osWrite = some (WriteOutcome.ret 0) := by
  have h1 : data_len + 1 ≤ 16 := by omega
  have h2 : data_len ≤ reg_data.length := le_of_eq hdata.symm
  have hreg : bus_write_reg reg_addr reg_data data_len =
      some (reg_addr :: reg_data) := by
    unfold bus_write_reg
    rw [if_pos ⟨h1, h2⟩, ← hdata, List.take_length]
  refine ⟨hreg, by simp [hdata], ?_⟩
  unfold bus_write
  rw [hreg]
  simp only [if_pos hok]

/-- C7 witness: writing the two payload bytes `[1, 2]` to register 116
issues the 3-byte frame `[116, 1, 2]` and returns 0 when the OS
transfers all 3 bytes. -/
theorem bus_write_frame_w :
    bus_write_reg 116 [1, 2] 2 = some [116, 1, 2] ∧
    ([116, 1, 2] : List Nat).length = 2 + 1 ∧
    bus_write 116 [1, 2] 2 (fun _ => 3) = some (WriteOutcome.ret 0) :=
  bus_write_frame 116 [1, 2] 2 (fun _ => 3) (by decide) rfl (by decide)

/-- C8 counterexample: at `t_ms = 4294968` the microsecond count handed
to `usleep` is `4294968 * 1000` reduced modulo `2^32`, namely 704, not
`t_ms × 1000 = 4294968000` — the 32-bit multiplication overflows and
the sleep is far shorter than requested. -/
theorem sleeper_overflow_cex :
    sleeper_usleep_arg 4294968 ≠ 4294968 * 1000 := by
  decide

/-- C8 amended: for every 32-bit input `t_ms`, the microsecond count
`sleeper` requests from `usleep` is `(t_ms × 1000) mod 2^32`; it equals
`t_ms × 1000` exactly when `t_ms ≤ 4294967`, so only below that bound
is the sleep never shorter than requested. -/
theorem sleeper_usleep_arg_exact (t_ms : Nat) (h : t_ms < 4294967296) :
    sleeper_usleep_arg t_ms = (t_ms * 1000) % 4294967296 ∧
    (sleeper_usleep_arg t_ms = t_ms * 1000 ↔ t_ms ≤ 4294967) := by
  refine ⟨rfl, ?_⟩
  unfold sleeper_usleep_arg
  omega

/-- C8 amended witness: at `t_ms = 1000` the requested count is exactly
one million microseconds. -/
theorem sleeper_usleep_arg_exact_w :
    sleeper_usleep_arg 1000 = (1000 * 1000) % 4294967296 ∧
    (sleeper_usleep_arg 1000 = 1000 * 1000 ↔ 1000 ≤ 4294967) :=
  sleeper_usleep_arg_exact 1000 (by decide)

/-- C9 counterexample: `gettimeofday` reads the settable realtime
clock, so a trace on which the clock is stepped back between two calls
is a legitimate environment; on the concrete trace whose readings are
`(100, 0)` then `(50, 0)` seconds, the second call to
`get_timestamp_us` returns a strictly smaller value than the first —
successive calls are not non-decreasing. -/
theorem get_timestamp_us_not_monotone_cex :
    timestampTrace (fun n => (100 - 50 * (n : Int), 0)) 1 <
      timestampTrace (fun n => (100 - 50 * (n : Int), 0)) 0 := by
  norm_num [timestampTrace, get_timestamp_us]

/-- C9 amended: `get_timestamp_us` never fails (it is a total function
of the `gettimeofday` reading, `tv_sec * 1000000 + tv_usec`), and its
successive values are non-decreasing whenever the underlying
`gettimeofday` readings are chronologically ordered — lexicographically
non-decreasing with `0 ≤ tv_usec < 1000000`; since the realtime clock
may be stepped backwards, unconditional monotonicity does not hold. -/
theorem get_timestamp_us_monotone (clock : Nat → Int × Int)
    (husec : ∀ n, 0 ≤ (clock n).2 ∧ (clock n).2 < 1000000)
    (hmono : ∀ n, (clock n).1 < (clock (n + 1)).1 ∨
      ((clock n).1 = (clock (n + 1)).1 ∧ (clock n).2 ≤ (clock (n + 1)).2)) :
    ∀ n, timestampTrace clock n ≤ timestampTrace clock (n + 1) := by
  intro n
  unfold timestampTrace get_timestamp_us
  rcases hmono n with h | ⟨h1, h2⟩
  · have hu1 := (husec n).2
    have hu2 := (husec (n + 1)).1
    have hs : (clock n).1 + 1 ≤ (clock (n + 1)).1 := h
    linarith
  · rw [h1]
    linarith [h2]

/-- C9 amended witness: on the trace whose readings are `(n, 0)`, the
timestamp of call 0 does not exceed the timestamp of call 1. -/
theorem get_timestamp_us_monotone_w :
    timestampTrace (fun n => ((n : Int), 0)) 0 ≤
      timestampTrace (fun n => ((n : Int), 0)) (0 + 1) :=
  get_timestamp_us_monotone (fun n => ((n : Int), 0))
    (fun _ => ⟨le_refl 0, by norm_num⟩)
    (fun n => Or.inl (show ((n : Int)) < (((n + 1 : Nat) : Int)) by
      exact_mod_cast Nat.lt_succ_self n)) 0

/-- C10: the copy loop of `bus_write` stores to the cells
`reg[1], ..., reg[data_len]` of the 16-byte stack buffer; every store
is in bounds exactly when `data_len ≤ 15`, and for every `data_len ≥ 16`
the loop stores to index 16, one past the end of the buffer. -/
theorem bus_write_copy_bounds (data_len : Nat) :
    ((∀ i ∈ bus_write_copy_indices data_len, i < 16) ↔ data_len ≤ 15) ∧
    (16 ≤ data_len → 16 ∈ bus_write_copy_indices data_len) := by
  have hmem : ∀ m, m ∈ bus_write_copy_indices data_len ↔
      1 ≤ m ∧ m < 1 + data_len := by
    intro m
    unfold bus_write_copy_indices
    exact List.mem_range'_1
  constructor
  · constructor
    · intro h
      by_contra hgt
      push_neg at hgt
      have h16 : 16 ∈ bus_write_copy_indices data_len := by
        rw [hmem]
        omega
      have := h 16 h16
      omega
    · intro h i hi
      rw [hmem] at hi
      omega
  · intro h
    rw [hmem]
    omega

/-- C10 witness: at `data_len = 16` the copy loop stores to index 16 of
the 16-byte buffer. -/
theorem bus_write_copy_bounds_w :
    16 ∈ bus_write_copy_indices 16 :=
  (bus_write_copy_bounds 16).2 (by decide)
